import Mathlib

/-!
Shallow embedding of `inventory_tracker.py`, a single-file warehouse
inventory editor backed by a CSV file.

Modelling conventions:
* A CSV row is an `InventoryRecord` of five strings; the on-disk table is a
  `List InventoryRecord` (file order).  The `Updated On` column is kept in its
  on-disk serialized form `YYYY-MM-DD HH:MM:SS`; `load_data`'s
  `pd.to_datetime` / the grid path's `dt.strftime` round-trip is the identity
  at this level of abstraction.
* `datetime.now().strftime(...)` is modelled by passing the serialized current
  time as an explicit `updated_on` argument.
* The filesystem state for `initialize_csv` is `Option CsvFile`
  (`none` = file absent).
* The OpenAI call in `enhance_notes` is modelled by an explicit
  `Except String String` argument: `Except.ok body` is a successful response
  body, `Except.error e` is any raised exception.
* pandas `Series.str.contains(pat, case=False)` compiles `pat` as a regular
  expression (`regex=True` is the default) and runs `re.search` with
  `re.IGNORECASE`.  The embedding `re_search` models the fragment of Python
  regular expressions actually reachable by the claims: patterns made of
  literal characters and the metacharacter `.` (any character except a
  newline).  Patterns free of regex metacharacters fall inside this fragment
  and there `re_search` is exactly case-insensitive substring search.
-/

/-- A row of the CSV table: columns `SKU`, `Notes`, `Inventory Level`,
`Updated By`, `Updated On` (the last kept as its serialized string). -/
structure InventoryRecord where
  sku : String
  notes : String
  inventoryLevel : String
  updatedBy : String
  updatedOn : String
deriving DecidableEq, Repr, Inhabited

/-- The header row written by `initialize_csv` (source line 56-57). -/
def csv_headers : List String :=
  ["SKU", "Notes", "Inventory Level", "Updated By", "Updated On"]

/-- The on-disk CSV file: a header line and the data rows. -/
structure CsvFile where
  header : List String
  rows : List InventoryRecord
deriving DecidableEq, Repr

/-- `initialize_csv()` (source lines 51-58): if the file does not exist
(`none`), create it with the five default headers and no rows; otherwise
leave it alone. -/
def initialize_csv : Option CsvFile → Option CsvFile
  | none => some ⟨csv_headers, []⟩
  | some f => some f

/-- `load_data()` (source lines 65-69): reads the whole table and parses the
`Updated On` column with `pd.to_datetime`.  Since timestamps are kept in
serialized form in this model, the parse is the identity on the table. -/
def load_data (df : List InventoryRecord) : List InventoryRecord := df

/-- The in-place row mutation of `update_csv`'s found-branch (source lines
79-83): `df.at[idx, "Notes"] = ...` etc. — replaces `Notes`,
`Inventory Level`, `Updated By`, `Updated On`, leaves `SKU` alone. -/
def updatedRow (r : InventoryRecord)
    (new_notes inventory_level updated_by updated_on : String) :
    InventoryRecord :=
  { r with
    notes := new_notes
    inventoryLevel := inventory_level
    updatedBy := updated_by
    updatedOn := updated_on }

/-- The found-branch of `update_csv` (source lines 79-83):
`idx = df.index[df["SKU"] == sku][0]` selects the FIRST row whose `SKU`
matches, and that single row is mutated in place. -/
def update_first (sku new_notes updated_by inventory_level updated_on : String) :
    List InventoryRecord → List InventoryRecord
  | [] => []
  | r :: rs =>
    if r.sku == sku then
      updatedRow r new_notes inventory_level updated_by updated_on :: rs
    else
      r :: update_first sku new_notes updated_by inventory_level updated_on rs

/-- `update_csv(sku, new_notes, updated_by, inventory_level)` (source lines
72-97).  `updated_on` stands for `datetime.now().strftime("%Y-%m-%d %H:%M:%S")`.
If `sku in df["SKU"].values` the first matching row is updated, otherwise a
new row is appended (`pd.concat`); the whole table is then written back. -/
def update_csv (sku new_notes updated_by inventory_level updated_on : String)
    (df : List InventoryRecord) : List InventoryRecord :=
  if df.any (fun r => r.sku == sku) then
    update_first sku new_notes updated_by inventory_level updated_on df
  else
    df ++ [⟨sku, new_notes, inventory_level, updated_by, updated_on⟩]

/-- `enhance_notes(original_notes)` (source lines 101-116): on a successful
API call, the response body is returned; on ANY exception the error is shown
with `st.error` and the ORIGINAL text is returned. -/
def enhance_notes (original_notes : String) (api : Except String String) :
    String :=
  match api with
  | Except.ok body => body
  | Except.error _ => original_notes

/-- Python truthiness of an optional string (`if selected_sku and ...`):
`None` and the empty string are falsy. -/
def truthyOpt (s : Option String) : Bool :=
  match s with
  | none => false
  | some s => s ≠ ""

/-- The update-form submission handler (source lines 187-199).  Returns the
stored table after the attempt and whether a write was performed.  `api` is
the outcome of the OpenAI call, consulted only when `enhance_with_ai`. -/
def update_submission (df : List InventoryRecord) (selected_sku : Option String)
    (new_notes updated_by inventory_level : String) (enhance_with_ai : Bool)
    (api : Except String String) (updated_on : String) :
    List InventoryRecord × Bool :=
  if truthyOpt selected_sku && new_notes ≠ "" && updated_by ≠ "" then
    let notes := if enhance_with_ai then enhance_notes new_notes api else new_notes
    (update_csv (selected_sku.getD "") notes updated_by inventory_level
      updated_on df, true)
  else
    (df, false)

/-- The add-form submission handler (source lines 225-241).  `df` is the
unfiltered table from which `current_skus` was taken (source line 145).
Returns the stored table after the attempt and whether a write was performed:
missing fields or a duplicate SKU show an error and skip the write. -/
def add_submission (df : List InventoryRecord)
    (new_sku new_notes updated_by inventory_level : String)
    (enhance_with_ai : Bool) (api : Except String String)
    (updated_on : String) : List InventoryRecord × Bool :=
  if new_sku ≠ "" && new_notes ≠ "" && updated_by ≠ "" then
    if df.any (fun r => r.sku == new_sku) then
      (df, false)
    else
      let notes := if enhance_with_ai then enhance_notes new_notes api else new_notes
      (update_csv new_sku notes updated_by inventory_level updated_on df, true)
  else
    (df, false)

/-- The grid-edit persistence step (source lines 290-295): if the edited
frame differs from the DISPLAYED (filtered) frame, the edited frame replaces
the whole file; otherwise nothing is written and the stored table stays. -/
def grid_edit_commit (stored displayed edited : List InventoryRecord) :
    List InventoryRecord :=
  if displayed = edited then stored else edited

/-- The five cell values of a row, as `row.astype(str)` enumerates them
(source line 249). -/
def fields (r : InventoryRecord) : List String :=
  [r.sku, r.notes, r.inventoryLevel, r.updatedBy, r.updatedOn]

/-- One anchored match step of Python `re` with `re.IGNORECASE`, for patterns
made of literal characters and `.`: the pattern consumes the front of the
text, `.` matching any character except a newline, a literal character
matching itself up to case. -/
def re_match_here : List Char → List Char → Bool
  | [], _ => true
  | _ :: _, [] => false
  | p :: ps, c :: cs =>
    (if p = '.' then c ≠ '\n' else p.toLower = c.toLower) &&
      re_match_here ps cs

/-- Python `re.search(pat, s, re.IGNORECASE)` for the literal-and-dot
fragment: the pattern may match starting at any position of the text. -/
def re_search (pat : List Char) : List Char → Bool
  | [] => re_match_here pat []
  | c :: cs => re_match_here pat (c :: cs) || re_search pat cs

/-- pandas `Series.str.contains(pat, case=False)` on one cell (source lines
248-258): the default `regex=True` compiles `pat` and runs a
case-insensitive `re.search` over the cell text. -/
def str_contains_ci (cell pat : String) : Bool :=
  re_search pat.data cell.data

/-- The global-search predicate on one row (source lines 249-250):
`row.astype(str).str.contains(global_search, case=False).any()`. -/
def global_row_match (global_search : String) (r : InventoryRecord) : Bool :=
  (fields r).any (fun f => str_contains_ci f global_search)

/-- The four filter applications of `main` in source order (lines 248-258);
each text input is applied only when non-empty (Python truthiness of the
query string). -/
def apply_filters (global_search sku_filter notes_filter updated_by_filter :
    String) (df : List InventoryRecord) : List InventoryRecord :=
  let df1 := if global_search = "" then df
    else df.filter (global_row_match global_search)
  let df2 := if sku_filter = "" then df1
    else df1.filter (fun r => str_contains_ci r.sku sku_filter)
  let df3 := if notes_filter = "" then df2
    else df2.filter (fun r => str_contains_ci r.notes notes_filter)
  if updated_by_filter = "" then df3
  else df3.filter (fun r => str_contains_ci r.updatedBy updated_by_filter)

/-- One filter stage: a query string paired with the predicate it feeds; the
stage is skipped when the query is empty, exactly as each `if <query>:` guard
in `main` does. -/
def filter_step (step : String × (String → InventoryRecord → Bool))
    (df : List InventoryRecord) : List InventoryRecord :=
  if step.1 = "" then df else df.filter (step.2 step.1)

/-- Applying a sequence of filter stages left to right. -/
def apply_filter_list (steps : List (String × (String → InventoryRecord → Bool)))
    (df : List InventoryRecord) : List InventoryRecord :=
  steps.foldl (fun d s => filter_step s d) df

/-- The four filter stages of `main` (source lines 248-258) in source order:
global search, SKU filter, Notes filter, Updated-By filter. -/
def main_filter_steps (global_search sku_filter notes_filter
    updated_by_filter : String) :
    List (String × (String → InventoryRecord → Bool)) :=
  [(global_search, fun q r => global_row_match q r),
   (sku_filter, fun q r => str_contains_ci r.sku q),
   (notes_filter, fun q r => str_contains_ci r.notes q),
   (updated_by_filter, fun q r => str_contains_ci r.updatedBy q)]

/-- The conjunction of the four (guarded) filter predicates on one row. -/
def combined_filter_pred (global_search sku_filter notes_filter
    updated_by_filter : String) (r : InventoryRecord) : Bool :=
  (global_search = "" || global_row_match global_search r) &&
  (sku_filter = "" || str_contains_ci r.sku sku_filter) &&
  (notes_filter = "" || str_contains_ci r.notes notes_filter) &&
  (updated_by_filter = "" || str_contains_ci r.updatedBy updated_by_filter)

/-- Case-insensitive "starts with": the spec-side notion used to compare the
code's regex behaviour against plain substring search. -/
def starts_ci : List Char → List Char → Bool
  | [], _ => true
  | _ :: _, [] => false
  | p :: ps, c :: cs => (p.toLower = c.toLower) && starts_ci ps cs

/-- Case-insensitive substring containment (`pat` occurs inside `cell`),
written from the spec's words "contains `query` case-insensitively". -/
def substring_ci (pat : List Char) : List Char → Bool
  | [] => starts_ci pat []
  | c :: cs => starts_ci pat (c :: cs) || substring_ci pat cs

/-- Spec-side global filter ("keeps a record if any field's string
representation contains `query` case-insensitively"), for comparison with
the code's `apply_filters` global stage. -/
def filterGlobal_spec (df : List InventoryRecord) (query : String) :
    List InventoryRecord :=
  df.filter (fun r => (fields r).any (fun f => substring_ci query.data f.data))

/-- The code's global filter stage in isolation (source lines 248-250),
including the skip on an empty query. -/
def filterGlobal (df : List InventoryRecord) (query : String) :
    List InventoryRecord :=
  if query = "" then df else df.filter (global_row_match query)

/-- The metacharacters of Python regular expressions.  A pattern containing
none of them is matched by `re.search` exactly as a literal substring. -/
def re_metachars : List Char :=
  ['.', '^', '$', '*', '+', '?', '\x7b', '\x7d', '[', ']', '\\', '|', '(', ')']

/-- A query that pandas/`re` will treat as a literal string: none of its
characters is a regex metacharacter. -/
def literal_pat (q : String) : Bool :=
  q.data.all (fun c => !re_metachars.contains c)

/-- Sample rows used to instantiate witnesses and counterexamples on
concrete inputs. -/
def recA : InventoryRecord :=
  ⟨"ABC123", "low stock", "Low", "Emir Sevim", "2024-01-02 10:00:00"⟩

def recB : InventoryRecord :=
  ⟨"A1", "memo", "Full", "Enis Sevim", "2024-01-01 00:00:00"⟩

def dupA : InventoryRecord :=
  ⟨"X9", "first copy", "Full", "Emir Sevim", "2024-01-03 09:00:00"⟩

def dupB : InventoryRecord :=
  ⟨"X9", "second copy", "Low", "Enis Sevim", "2024-01-04 09:00:00"⟩

/-- `update_first` is exactly "set the first matching index": when no row
matches, `List.findIdx` is the length and `List.set` is the identity. -/
theorem update_first_eq_set (sku n e l t : String) (df : List InventoryRecord) :
    update_first sku n e l t df =
      df.set (df.findIdx fun r => r.sku == sku)
        (updatedRow (df.getD (df.findIdx fun r => r.sku == sku) default) n l e t) := by
  induction df with
  | nil => rfl
  | cons r rs ih =>
    cases h : r.sku == sku with
    | true => simp [update_first, h, List.findIdx_cons]
    | false => simp [update_first, h, List.findIdx_cons, ih]

/-- The first index satisfying `p` is at most any index satisfying `p`. -/
theorem findIdx_le_of_getD {α : Type} (p : α → Bool) (d : α) :
    ∀ (l : List α) (i : Nat), i < l.length → p (l.getD i d) = true →
      l.findIdx p ≤ i := by
  intro l
  induction l with
  | nil => intro i hi _; simp at hi
  | cons a l ih =>
    intro i hi hp
    cases h : p a with
    | true => simp [List.findIdx_cons, h]
    | false =>
      cases i with
      | zero => rw [List.getD_cons_zero] at hp; rw [hp] at h; cases h
      | succ i =>
        simp only [List.findIdx_cons, h, cond_false]
        have := ih i (by simpa using hi) (by simpa using hp)
        omega

/-- The row at the first matching index does match. -/
theorem findIdx_getD_eq_true {α : Type} (p : α → Bool) (d : α)
    (l : List α) (h : l.findIdx p < l.length) :
    p (l.getD (l.findIdx p) d) = true := by
  rw [List.getD_eq_getElem?_getD, List.getElem?_eq_getElem h, Option.getD_some]
  exact List.findIdx_getElem

/-- `getD` at the just-set index. -/
theorem getD_set_self {α : Type} (l : List α) (k : Nat) (v d : α)
    (h : k < l.length) : (l.set k v).getD k d = v := by
  rw [List.getD_eq_getElem?_getD, List.getElem?_set_self h, Option.getD_some]

/-- `getD` away from the set index. -/
theorem getD_set_ne {α : Type} (l : List α) (k i : Nat) (v d : α)
    (h : k ≠ i) : (l.set k v).getD i d = l.getD i d := by
  rw [List.getD_eq_getElem?_getD, List.getElem?_set_ne h, ← List.getD_eq_getElem?_getD]


/-- C1: updating an existing SKU then loading keeps the row count, replaces
that row's notes, inventory level and editor with the submitted values,
refreshes its timestamp to the current time, and leaves its SKU unchanged. -/
theorem upsert_existing_row_updated
    (df : List InventoryRecord) (sku n editor lvl now : String)
    (h : df.any (fun r => r.sku == sku) = true) :
    (load_data (update_csv sku n editor lvl now df)).length = df.length ∧
    ((load_data (update_csv sku n editor lvl now df)).getD
        (df.findIdx fun r => r.sku == sku) default).notes = n ∧
    ((load_data (update_csv sku n editor lvl now df)).getD
        (df.findIdx fun r => r.sku == sku) default).inventoryLevel = lvl ∧
    ((load_data (update_csv sku n editor lvl now df)).getD
        (df.findIdx fun r => r.sku == sku) default).updatedBy = editor ∧
    ((load_data (update_csv sku n editor lvl now df)).getD
        (df.findIdx fun r => r.sku == sku) default).updatedOn = now ∧
    ((load_data (update_csv sku n editor lvl now df)).getD
        (df.findIdx fun r => r.sku == sku) default).sku =
      (df.getD (df.findIdx fun r => r.sku == sku) default).sku ∧
    (df.getD (df.findIdx fun r => r.sku == sku) default).sku = sku := by
  have hex : ∃ r ∈ df, (r.sku == sku) = true := List.any_eq_true.mp h
  have hk : df.findIdx (fun r => r.sku == sku) < df.length :=
    List.findIdx_lt_length_of_exists hex
  have hupd : update_csv sku n editor lvl now df =
      df.set (df.findIdx fun r => r.sku == sku)
        (updatedRow (df.getD (df.findIdx fun r => r.sku == sku) default)
          n lvl editor now) := by
    simp only [update_csv, h, if_true]
    exact update_first_eq_set sku n editor lvl now df
  have hget : (load_data (update_csv sku n editor lvl now df)).getD
      (df.findIdx fun r => r.sku == sku) default =
      updatedRow (df.getD (df.findIdx fun r => r.sku == sku) default)
        n lvl editor now := by
    rw [load_data, hupd]
    exact getD_set_self _ _ _ _ hk
  have hsku : (df.getD (df.findIdx fun r => r.sku == sku) default).sku = sku := by
    have := findIdx_getD_eq_true (fun r => r.sku == sku) default df hk
    exact beq_iff_eq.mp this
  refine ⟨?_, ?_, ?_, ?_, ?_, ?_, hsku⟩
  · rw [load_data, hupd, List.length_set]
  · rw [hget]; rfl
  · rw [hget]; rfl
  · rw [hget]; rfl
  · rw [hget]; rfl
  · rw [hget]; rfl

theorem upsert_existing_row_updated_witness :
    (load_data (update_csv "ABC123" "restocked" "Enis Sevim" "Out"
        "2024-03-01 12:00:00" [recA])).length = [recA].length ∧
    ((load_data (update_csv "ABC123" "restocked" "Enis Sevim" "Out"
        "2024-03-01 12:00:00" [recA])).getD
        ([recA].findIdx fun r => r.sku == "ABC123") default).notes = "restocked" ∧
    ((load_data (update_csv "ABC123" "restocked" "Enis Sevim" "Out"
        "2024-03-01 12:00:00" [recA])).getD
        ([recA].findIdx fun r => r.sku == "ABC123") default).inventoryLevel = "Out" ∧
    ((load_data (update_csv "ABC123" "restocked" "Enis Sevim" "Out"
        "2024-03-01 12:00:00" [recA])).getD
        ([recA].findIdx fun r => r.sku == "ABC123") default).updatedBy = "Enis Sevim" ∧
    ((load_data (update_csv "ABC123" "restocked" "Enis Sevim" "Out"
        "2024-03-01 12:00:00" [recA])).getD
        ([recA].findIdx fun r => r.sku == "ABC123") default).updatedOn =
      "2024-03-01 12:00:00" ∧
    ((load_data (update_csv "ABC123" "restocked" "Enis Sevim" "Out"
        "2024-03-01 12:00:00" [recA])).getD
        ([recA].findIdx fun r => r.sku == "ABC123") default).sku =
      ([recA].getD ([recA].findIdx fun r => r.sku == "ABC123") default).sku ∧
    ([recA].getD ([recA].findIdx fun r => r.sku == "ABC123") default).sku =
      "ABC123" :=
  upsert_existing_row_updated [recA] "ABC123" "restocked" "Enis Sevim" "Out"
    "2024-03-01 12:00:00" (by decide)

/-- C9: updating an existing SKU leaves every row whose SKU differs
untouched, at its original position; the row count is preserved, so only the
matching row can have changed. -/
theorem upsert_frame_nonmatching
    (df : List InventoryRecord) (sku n editor lvl now : String)
    (h : df.any (fun r => r.sku == sku) = true) :
    (update_csv sku n editor lvl now df).length = df.length ∧
    ∀ i : Nat, (df.getD i default).sku ≠ sku →
      (update_csv sku n editor lvl now df).getD i default =
        df.getD i default := by
  have hex : ∃ r ∈ df, (r.sku == sku) = true := List.any_eq_true.mp h
  have hk : df.findIdx (fun r => r.sku == sku) < df.length :=
    List.findIdx_lt_length_of_exists hex
  have hupd : update_csv sku n editor lvl now df =
      df.set (df.findIdx fun r => r.sku == sku)
        (updatedRow (df.getD (df.findIdx fun r => r.sku == sku) default)
          n lvl editor now) := by
    simp only [update_csv, h, if_true]
    exact update_first_eq_set sku n editor lvl now df
  have hsku : (df.getD (df.findIdx fun r => r.sku == sku) default).sku = sku :=
    beq_iff_eq.mp (findIdx_getD_eq_true (fun r => r.sku == sku) default df hk)
  constructor
  · rw [hupd, List.length_set]
  · intro i hi
    have hne : df.findIdx (fun r => r.sku == sku) ≠ i := by
      intro he; exact hi (he ▸ hsku)
    rw [hupd, getD_set_ne _ _ _ _ _ hne]

theorem upsert_frame_nonmatching_witness :
    (update_csv "ABC123" "restocked" "Enis Sevim" "Out" "2024-03-01 12:00:00"
      [recB, recA]).length = [recB, recA].length ∧
    ∀ i : Nat, ([recB, recA].getD i default).sku ≠ "ABC123" →
      (update_csv "ABC123" "restocked" "Enis Sevim" "Out" "2024-03-01 12:00:00"
        [recB, recA]).getD i default = [recB, recA].getD i default :=
  upsert_frame_nonmatching [recB, recA] "ABC123" "restocked" "Enis Sevim"
    "Out" "2024-03-01 12:00:00" (by decide)


/-- C10: when the table holds duplicate rows for the SKU, `update_csv`
rewrites only the first matching row (the `findIdx` position); every later
duplicate keeps its old contents, so the duplicates persist after the
write. -/
theorem upsert_duplicates_first_match_only
    (df : List InventoryRecord) (sku n editor lvl now : String) (i j : Nat)
    (hij : i < j) (hj : j < df.length)
    (hi' : (df.getD i default).sku = sku)
    (hj' : (df.getD j default).sku = sku) :
    (update_csv sku n editor lvl now df).getD j default = df.getD j default ∧
    ((update_csv sku n editor lvl now df).getD j default).sku = sku ∧
    (update_csv sku n editor lvl now df).getD
        (df.findIdx fun r => r.sku == sku) default =
      updatedRow (df.getD (df.findIdx fun r => r.sku == sku) default)
        n lvl editor now ∧
    ∀ m : Nat, (update_csv sku n editor lvl now df).getD m default ≠
        df.getD m default → m = df.findIdx fun r => r.sku == sku := by
  have hi : i < df.length := Nat.lt_trans hij hj
  have hgi : df.getD i default = df.get ⟨i, hi⟩ := by
    rw [List.getD_eq_getElem?_getD, List.getElem?_eq_getElem hi,
      Option.getD_some, List.get_eq_getElem]
  have hany : df.any (fun r => r.sku == sku) = true := by
    rw [List.any_eq_true]
    refine ⟨df.get ⟨i, hi⟩, List.get_mem df i hi, ?_⟩
    rw [beq_iff_eq, ← hgi]; exact hi'
  have hkle : df.findIdx (fun r => r.sku == sku) ≤ i :=
    findIdx_le_of_getD _ _ df i hi (beq_iff_eq.mpr hi')
  have hkj : df.findIdx (fun r => r.sku == sku) < j := Nat.lt_of_le_of_lt hkle hij
  have hk : df.findIdx (fun r => r.sku == sku) < df.length := Nat.lt_trans hkj hj
  have hupd : update_csv sku n editor lvl now df =
      df.set (df.findIdx fun r => r.sku == sku)
        (updatedRow (df.getD (df.findIdx fun r => r.sku == sku) default)
          n lvl editor now) := by
    simp only [update_csv, hany, if_true]
    exact update_first_eq_set sku n editor lvl now df
  have hj2 : (update_csv sku n editor lvl now df).getD j default =
      df.getD j default := by
    rw [hupd, getD_set_ne _ _ _ _ _ (Nat.ne_of_lt hkj)]
  refine ⟨hj2, by rw [hj2]; exact hj', ?_, ?_⟩
  · rw [hupd, getD_set_self _ _ _ _ hk]
  · intro m hm
    by_contra hne
    exact hm (by rw [hupd, getD_set_ne _ _ _ _ _ (fun he => hne he.symm)])

theorem upsert_duplicates_first_match_only_witness :
    (update_csv "X9" "merged" "Emir Sevim" "Out" "2024-03-02 08:00:00"
      [dupA, recB, dupB]).getD 2 default = [dupA, recB, dupB].getD 2 default ∧
    ((update_csv "X9" "merged" "Emir Sevim" "Out" "2024-03-02 08:00:00"
      [dupA, recB, dupB]).getD 2 default).sku = "X9" ∧
    (update_csv "X9" "merged" "Emir Sevim" "Out" "2024-03-02 08:00:00"
        [dupA, recB, dupB]).getD
        ([dupA, recB, dupB].findIdx fun r => r.sku == "X9") default =
      updatedRow ([dupA, recB, dupB].getD
        ([dupA, recB, dupB].findIdx fun r => r.sku == "X9") default)
        "merged" "Out" "Emir Sevim" "2024-03-02 08:00:00" ∧
    ∀ m : Nat, (update_csv "X9" "merged" "Emir Sevim" "Out" "2024-03-02 08:00:00"
        [dupA, recB, dupB]).getD m default ≠ [dupA, recB, dupB].getD m default →
      m = [dupA, recB, dupB].findIdx fun r => r.sku == "X9" :=
  upsert_duplicates_first_match_only [dupA, recB, dupB] "X9" "merged"
    "Emir Sevim" "Out" "2024-03-02 08:00:00" 0 2 (by decide) (by decide)
    (by decide) (by decide)

/-- C2: upserting a SKU absent from the table appends the new row after all
existing rows, and after loading the table holds exactly one row with that
SKU, carrying the submitted notes, level, editor and the current
timestamp. -/
theorem upsert_new_sku_appends
    (df : List InventoryRecord) (sku n editor lvl now : String)
    (h : ∀ r ∈ df, r.sku ≠ sku) :
    load_data (update_csv sku n editor lvl now df) =
      df ++ [⟨sku, n, lvl, editor, now⟩] ∧
    (load_data (update_csv sku n editor lvl now df)).filter
        (fun r => r.sku == sku) = [⟨sku, n, lvl, editor, now⟩] := by
  have hfalse : df.any (fun r => r.sku == sku) = false := by
    rw [List.any_eq_false]
    intro r hr
    simp only [beq_iff_eq]
    exact h r hr
  have happ : load_data (update_csv sku n editor lvl now df) =
      df ++ [⟨sku, n, lvl, editor, now⟩] := by
    rw [load_data]
    simp only [update_csv, hfalse, Bool.false_eq_true, if_false]
  refine ⟨happ, ?_⟩
  rw [happ, List.filter_append]
  have h1 : df.filter (fun r => r.sku == sku) = [] := by
    rw [List.filter_eq_nil_iff]
    intro r hr
    simp only [beq_iff_eq]
    exact h r hr
  rw [h1]
  simp [List.filter_cons]

theorem upsert_new_sku_appends_witness :
    load_data (update_csv "ABC123" "low stock" "Emir Sevim" "Low"
        "2024-03-01 12:00:00" []) =
      [] ++ [⟨"ABC123", "low stock", "Low", "Emir Sevim", "2024-03-01 12:00:00"⟩] ∧
    (load_data (update_csv "ABC123" "low stock" "Emir Sevim" "Low"
        "2024-03-01 12:00:00" [])).filter (fun r => r.sku == "ABC123") =
      [⟨"ABC123", "low stock", "Low", "Emir Sevim", "2024-03-01 12:00:00"⟩] :=
  upsert_new_sku_appends [] "ABC123" "low stock" "Emir Sevim" "Low"
    "2024-03-01 12:00:00" (by simp)

/-- C3: an add-form submission whose SKU already exists in the unfiltered
table is rejected — the handler reports an error, performs no write, and the
stored table after the attempt equals the stored table before it. -/
theorem add_existing_sku_rejected
    (df : List InventoryRecord)
    (sku notes editor lvl : String) (enh : Bool)
    (api : Except String String) (now : String)
    (h : ∃ r ∈ df, r.sku = sku) :
    add_submission df sku notes editor lvl enh api now = (df, false) := by
  obtain ⟨r, hr, hrs⟩ := h
  have hany : df.any (fun r => r.sku == sku) = true :=
    List.any_eq_true.mpr ⟨r, hr, beq_iff_eq.mpr hrs⟩
  by_cases hg : (sku ≠ "" && notes ≠ "" && editor ≠ "") = true
  · simp [add_submission, hg, hany]
  · simp [add_submission, hg]
    exact fun _ _ _ => ⟨r, hr, hrs⟩

theorem add_existing_sku_rejected_witness :
    add_submission [recA] "ABC123" "copy" "Enis Sevim" "Low" false
      (Except.error "down") "2024-03-01 12:00:00" = ([recA], false) :=
  add_existing_sku_rejected [recA] "ABC123" "copy" "Enis Sevim" "Low" false
    (Except.error "down") "2024-03-01 12:00:00"
    ⟨recA, by simp, by decide⟩

/-- C5: when the remote call raises, `enhance_notes` returns the original
text unchanged, and the update-form save proceeds exactly as it would with
enhancement off — the saved note equals the pre-enhancement text. -/
theorem enhance_failure_keeps_text
    (text err : String) (df : List InventoryRecord)
    (selected : Option String) (editor lvl now : String) :
    enhance_notes text (Except.error err) = text ∧
    update_submission df selected text editor lvl true (Except.error err) now =
      update_submission df selected text editor lvl false (Except.error err)
        now := by
  constructor
  · rfl
  · simp [update_submission, enhance_notes]

/-- C7: a grid edit that replaces a two-row table with a single modified
first row, committed through the whole-table replace, loads back as exactly
that one modified row. -/
theorem grid_edit_replace_two_rows
    (a1 a2 a1' : InventoryRecord) :
    load_data (grid_edit_commit [a1, a2] [a1, a2] [a1']) = [a1'] := by
  rw [load_data, grid_edit_commit, if_neg]
  simp

/-- C8: `initialize_csv` creates the file with the five-column header and no
rows when it is absent, never touches an existing file, and is idempotent
from every starting state. -/
theorem initialize_csv_idempotent :
    (∀ s : Option CsvFile,
        initialize_csv (initialize_csv s) = initialize_csv s) ∧
    initialize_csv none = some ⟨csv_headers, []⟩ ∧
    csv_headers.length = 5 ∧
    ∀ f : CsvFile, initialize_csv (some f) = some f := by
  refine ⟨?_, rfl, rfl, fun f => rfl⟩
  intro s
  cases s <;> rfl

theorem substring_ci_nil (s : List Char) : substring_ci [] s = true := by
  cases s <;> simp [substring_ci, starts_ci]

/-- On a pattern free of regex metacharacters, one anchored `re` step is
exactly a case-insensitive prefix match. -/
theorem re_match_here_literal (p : List Char)
    (hp : p.all (fun c => !re_metachars.contains c) = true) :
    ∀ s : List Char, re_match_here p s = starts_ci p s := by
  induction p with
  | nil => intro s; rfl
  | cons c cs ih =>
    have hc : ¬c = '.' := by
      have h1 := List.all_eq_true.mp hp c (by simp)
      intro he
      rw [he] at h1
      simp [re_metachars] at h1
    have hcs : cs.all (fun c => !re_metachars.contains c) = true := by
      rw [List.all_eq_true] at hp ⊢
      intro x hx
      exact hp x (by simp [hx])
    intro s
    cases s with
    | nil => rfl
    | cons d ds => simp [re_match_here, starts_ci, hc, ih hcs]

/-- On a pattern free of regex metacharacters, `re.search` is exactly
case-insensitive substring containment. -/
theorem re_search_literal (p : List Char)
    (hp : p.all (fun c => !re_metachars.contains c) = true) :
    ∀ s : List Char, re_search p s = substring_ci p s := by
  intro s
  induction s with
  | nil => simp [re_search, substring_ci, re_match_here_literal p hp]
  | cons c cs ih => simp [re_search, substring_ci, re_match_here_literal p hp, ih]

/-- C4 (amended): for queries free of regex metacharacters, the global
filter keeps exactly the records with a field containing the query as a
case-insensitive substring; the empty query returns all records; a
metacharacter-free query matching no field of any record returns the empty
set.  (For general queries pandas treats the text as a regular expression,
so plain-substring semantics can fail — see the counterexample.) -/
theorem global_filter_literal_substring
    (df : List InventoryRecord) (q : String) :
    (literal_pat q = true → filterGlobal df q = filterGlobal_spec df q) ∧
    filterGlobal df "" = df ∧
    (literal_pat q = true →
      df.all (fun r => !(fields r).any fun f => substring_ci q.data f.data) =
        true →
      filterGlobal df q = []) := by
  have hdata : ("" : String).data = [] := rfl
  have hempty : filterGlobal df "" = df := by simp [filterGlobal]
  have hmain : literal_pat q = true →
      filterGlobal df q = filterGlobal_spec df q := by
    intro hl
    by_cases hq : q = ""
    · subst hq
      rw [hempty]
      simp only [filterGlobal_spec]
      rw [List.filter_congr (fun r _ => ?_), List.filter_true]
      simp [fields, hdata, substring_ci_nil]
    · simp only [filterGlobal, hq, if_false, filterGlobal_spec]
      refine List.filter_congr fun r _ => ?_
      simp [global_row_match, str_contains_ci, re_search_literal q.data hl]
  refine ⟨hmain, hempty, ?_⟩
  intro hl hall
  rw [hmain hl]
  simp only [filterGlobal_spec]
  rw [List.filter_eq_nil_iff]
  intro r hr
  have := List.all_eq_true.mp hall r hr
  simpa using this

theorem global_filter_literal_substring_witness :
    (literal_pat "lo" = true →
      filterGlobal [recA] "lo" = filterGlobal_spec [recA] "lo") ∧
    filterGlobal [recA] "" = [recA] ∧
    (literal_pat "lo" = true →
      [recA].all
          (fun r => !(fields r).any fun f => substring_ci "lo".data f.data) =
        true →
      filterGlobal [recA] "lo" = []) :=
  global_filter_literal_substring [recA] "lo"

/-- C4 counterexample: on the query `"."` the code's filter keeps a record
none of whose fields contains a literal dot, because pandas compiles the
query as a regular expression; plain substring semantics would drop it. -/
theorem global_filter_dot_query_cex :
    filterGlobal [recB] "." = [recB] ∧ filterGlobal_spec [recB] "." = [] := by
  constructor <;> rfl

/-- Any two filter stages commute: each is either the identity or a pure
`List.filter`. -/
theorem filter_step_comm (s1 s2 : String × (String → InventoryRecord → Bool))
    (df : List InventoryRecord) :
    filter_step s1 (filter_step s2 df) = filter_step s2 (filter_step s1 df) := by
  unfold filter_step
  by_cases h1 : s1.1 = "" <;> by_cases h2 : s2.1 = "" <;> simp [h1, h2]
  exact List.filter_congr fun x _ => Bool.and_comm _ _

/-- Permuting the filter stages does not change the result. -/
theorem apply_filter_list_perm
    (steps1 steps2 : List (String × (String → InventoryRecord → Bool)))
    (hp : steps1.Perm steps2) :
    ∀ df : List InventoryRecord,
      apply_filter_list steps1 df = apply_filter_list steps2 df := by
  induction hp with
  | nil => intro df; rfl
  | cons x _ ih =>
    intro df
    simp only [apply_filter_list, List.foldl_cons]
    exact ih (filter_step x df)
  | swap x y l =>
    intro df
    simp only [apply_filter_list, List.foldl_cons]
    rw [filter_step_comm]
  | trans _ _ ih1 ih2 =>
    intro df
    rw [ih1 df, ih2 df]

/-- A guarded stage is the filter by the guarded predicate. -/
theorem filter_step_eq_filter (q : String) (p : InventoryRecord → Bool)
    (df : List InventoryRecord) :
    (if q = "" then df else df.filter p) =
      df.filter (fun r => q = "" || p r) := by
  by_cases h : q = "" <;> simp [h]

/-- The code's four filter stages, in source order, equal one filter by the
conjunction of the four guarded predicates. -/
theorem apply_filters_eq_combined
    (gs sf nf uf : String) (df : List InventoryRecord) :
    apply_filters gs sf nf uf df =
      df.filter (combined_filter_pred gs sf nf uf) := by
  simp only [apply_filters]
  rw [filter_step_eq_filter, filter_step_eq_filter, filter_step_eq_filter,
    filter_step_eq_filter, List.filter_filter, List.filter_filter,
    List.filter_filter]
  refine List.filter_congr fun r _ => ?_
  simp only [combined_filter_pred]
  cases hg : (decide (gs = "") || global_row_match gs r) <;>
    cases hs : (decide (sf = "") || str_contains_ci r.sku sf) <;>
    cases hn : (decide (nf = "") || str_contains_ci r.notes nf) <;>
    cases hu : (decide (uf = "") || str_contains_ci r.updatedBy uf) <;>
    simp [hg, hs, hn, hu]

/-- C6: the four filters compose by logical AND and the order of
application is irrelevant: any permutation of the code's filter stages
yields the records satisfying the conjunction of the active predicates, and
this agrees with the code's own source-order application. -/
theorem filters_compose_by_and
    (gs sf nf uf : String) (df : List InventoryRecord)
    (steps : List (String × (String → InventoryRecord → Bool)))
    (hp : (main_filter_steps gs sf nf uf).Perm steps) :
    apply_filter_list steps df =
      df.filter (combined_filter_pred gs sf nf uf) ∧
    apply_filters gs sf nf uf df =
      df.filter (combined_filter_pred gs sf nf uf) ∧
    apply_filter_list (main_filter_steps gs sf nf uf) df =
      apply_filters gs sf nf uf df := by
  have hco : apply_filters gs sf nf uf df =
      df.filter (combined_filter_pred gs sf nf uf) :=
    apply_filters_eq_combined gs sf nf uf df
  have hsrc : apply_filter_list (main_filter_steps gs sf nf uf) df =
      apply_filters gs sf nf uf df := rfl
  refine ⟨?_, hco, hsrc⟩
  rw [← apply_filter_list_perm _ _ hp df, hsrc, hco]

theorem filters_compose_by_and_witness :
    apply_filter_list
        [("a", fun q r => str_contains_ci r.sku q),
         ("sev", fun q r => global_row_match q r),
         ("", fun q r => str_contains_ci r.notes q),
         ("", fun q r => str_contains_ci r.updatedBy q)] [recA, recB] =
      [recA, recB].filter (combined_filter_pred "sev" "a" "" "") ∧
    apply_filters "sev" "a" "" "" [recA, recB] =
      [recA, recB].filter (combined_filter_pred "sev" "a" "" "") ∧
    apply_filter_list (main_filter_steps "sev" "a" "" "") [recA, recB] =
      apply_filters "sev" "a" "" "" [recA, recB] :=
  filters_compose_by_and "sev" "a" "" "" [recA, recB]
    [("a", fun q r => str_contains_ci r.sku q),
     ("sev", fun q r => global_row_match q r),
     ("", fun q r => str_contains_ci r.notes q),
     ("", fun q r => str_contains_ci r.updatedBy q)]
    (by unfold main_filter_steps; exact List.Perm.swap _ _ _)
